import Mathlib

/-!
Verification development for the Battery Valuator repository.

The repository's valuation engine is exposed through a Flask API
(`src/main.py`, recorded in the migration guide) and consumed by a React
frontend (`frontend/src/hooks/useBatteryValuator.ts`).  The Flask routes are
embedded here directly from their source; the pure engine module
(`backend.py` / `engine.py`) is not part of the published tree, so the engine
operations are modelled from the specification, with deviations noted where
the repository's own documents record concrete engine behaviour.

All monetary and mass quantities are rationals (the source uses Python
floats with no rounding applied internally).
-/

namespace BatteryValuator

/-- The six metals handled by the valuator (MetalSymbol set Ni, Co, Li, Cu, Al, Mn). -/
inductive Metal where
  | nickel
  | cobalt
  | lithium
  | copper
  | aluminum
  | manganese
  deriving DecidableEq

/-- A total map from the six metals to a rational value.  Used for assay
fractions, prices per kg, payable fractions, contained masses and per-metal
costs (the source passes Python dicts keyed by metal name or symbol). -/
structure MetalMap where
  nickel : ℚ
  cobalt : ℚ
  lithium : ℚ
  copper : ℚ
  aluminum : ℚ
  manganese : ℚ
  deriving DecidableEq

/-- An assay map: fractional content (0.0-1.0) per metal, 0.0 for metals not
mentioned. -/
abbrev AssayMap := MetalMap

/-- The all-zero metal map. -/
def MetalMap.zero : MetalMap := ⟨0, 0, 0, 0, 0, 0⟩

/-- Pointwise scaling of a metal map by a constant. -/
def MetalMap.scale (a : MetalMap) (c : ℚ) : MetalMap :=
  ⟨a.nickel * c, a.cobalt * c, a.lithium * c, a.copper * c,
   a.aluminum * c, a.manganese * c⟩

/-- Sum of the six entries of a metal map. -/
def MetalMap.total (a : MetalMap) : ℚ :=
  a.nickel + a.cobalt + a.lithium + a.copper + a.aluminum + a.manganese

/-- Pointwise triple product of three metal maps (used for mass × price ×
payable). -/
def MetalMap.mul3 (a b c : MetalMap) : MetalMap :=
  ⟨a.nickel * b.nickel * c.nickel,
   a.cobalt * b.cobalt * c.cobalt,
   a.lithium * b.lithium * c.lithium,
   a.copper * b.copper * c.copper,
   a.aluminum * b.aluminum * c.aluminum,
   a.manganese * b.manganese * c.manganese⟩

/-! ## AssayParser

Modelled from the spec: `backend.py`'s `parse_coa_text` is absent from
`src/`; only its Flask wrapper (`parse_coa` in `src/unnamed/part_004`) and
documentation examples (`src/unnamed/part_001`) survive.  Per spec §4.2 the
parser scans free-form text for a metal label (full name, symbol or common
alias, case-insensitive) followed by a numeric value; a trailing `%` or a
magnitude in (1, 100] means percent (divide by 100), a magnitude above 100 is
basis-point-like (divide by 10,000), a magnitude ≤ 1 is already a fraction.
Metals not mentioned default to 0.0 and the parser never fails. -/

/-- Tokens produced from raw COA text: lower-cased words, numeric values
(kept as their raw characters) and percent signs; all other characters
separate tokens. -/
inductive Tok where
  | word (s : List Char)
  | num (s : List Char)
  | pct
  deriving DecidableEq

/-- Partial token being accumulated while scanning the input. -/
inductive Cur where
  | blank
  | word (rev : List Char)
  | num (rev : List Char)
  deriving DecidableEq

/-- Numeric value of a decimal digit character. -/
def digitVal (c : Char) : ℕ := c.toNat - 48

/-- Natural number denoted by a list of decimal digit characters. -/
def natOfDigits (ds : List Char) : ℕ :=
  ds.foldl (fun a c => 10 * a + digitVal c) 0

/-- Integer part, fractional part and fractional length of a numeric token's
characters (digits with at most one decimal point; characters after a second
point are ignored). -/
def numParts (s : List Char) : ℕ × ℕ × ℕ :=
  let intPart := (s.takeWhile (fun c => c ≠ '.')).filter Char.isDigit
  let fracPart := ((s.dropWhile (fun c => c ≠ '.')).drop 1).takeWhile Char.isDigit
  (natOfDigits intPart, natOfDigits fracPart, fracPart.length)

/-- Rational denoted by a numeric token's characters. -/
def ratOfNumChars (s : List Char) : ℚ :=
  ((numParts s).1 : ℚ) + ((numParts s).2.1 : ℚ) / (10 : ℚ) ^ (numParts s).2.2

/-- Close the token currently being accumulated, pushing it on the (reversed)
token list. -/
def flushCur : Cur → List Tok → List Tok
  | Cur.blank, ts => ts
  | Cur.word r, ts => Tok.word r.reverse :: ts
  | Cur.num r, ts => Tok.num r.reverse :: ts

/-- One scanning step of the tokenizer. -/
def tokStep : List Tok × Cur → Char → List Tok × Cur
  | (ts, cur), c =>
    if c.isAlpha then
      match cur with
      | Cur.word r => (ts, Cur.word (c.toLower :: r))
      | _ => (flushCur cur ts, Cur.word [c.toLower])
    else if c.isDigit || c == '.' then
      match cur with
      | Cur.num r => (ts, Cur.num (c :: r))
      | _ => (flushCur cur ts, Cur.num [c])
    else if c == '%' then
      (Tok.pct :: flushCur cur ts, Cur.blank)
    else
      (flushCur cur ts, Cur.blank)

/-- Tokenize COA text into words, numbers and percent signs. -/
def tokenize (s : String) : List Tok :=
  let p := s.toList.foldl tokStep ([], Cur.blank)
  (flushCur p.2 p.1).reverse

/-- Magnitude heuristic of spec §4.2 for a value without an explicit percent
sign: ≤ 1 is already a fraction, in (1, 100] it is a percentage, above 100 it
is basis-point-like. -/
def normVal (q : ℚ) : ℚ :=
  if q ≤ 1 then q else if q ≤ 100 then q / 100 else q / 10000

/-- Find the first occurrence of the label `a` followed by a numeric value
and return that value's raw characters together with whether a percent sign
follows it, or `none`. -/
def findRaw (a : List Char) : List Tok → Option (List Char × Bool)
  | [] => none
  | Tok.word w :: Tok.num s :: Tok.pct :: rest =>
      if w = a then some (s, true) else findRaw a (Tok.num s :: Tok.pct :: rest)
  | Tok.word w :: Tok.num s :: rest =>
      if w = a then some (s, false) else findRaw a (Tok.num s :: rest)
  | _ :: rest => findRaw a rest

/-- Fractional content denoted by a matched raw value: an explicit percent
sign divides by 100, otherwise the magnitude heuristic applies. -/
def valueOf (p : List Char × Bool) : ℚ :=
  if p.2 then ratOfNumChars p.1 / 100 else normVal (ratOfNumChars p.1)

/-- Labels recognized for each metal: full name, symbol, common alias. -/
def aliasesOf : Metal → List (List Char)
  | Metal.nickel => [("nickel").toList, ("ni").toList]
  | Metal.cobalt => [("cobalt").toList, ("co").toList]
  | Metal.lithium => [("lithium").toList, ("li").toList]
  | Metal.copper => [("copper").toList, ("cu").toList]
  | Metal.aluminum => [("aluminum").toList, ("aluminium").toList, ("al").toList]
  | Metal.manganese => [("manganese").toList, ("mn").toList]

/-- Raw match extracted for one metal from a token list, trying each of its
labels in order. -/
def lookupMetal (ts : List Tok) (m : Metal) : Option (List Char × Bool) :=
  (aliasesOf m).foldl
    (fun acc a =>
      match acc with
      | some v => some v
      | none => findRaw a ts) none

/-- Parse free-form COA text into an assay map; metals not mentioned are 0.0
and the function is total (unparseable input never raises). -/
def parse (s : String) : AssayMap :=
  let ts := tokenize s
  { nickel := ((lookupMetal ts Metal.nickel).map valueOf).getD 0
    cobalt := ((lookupMetal ts Metal.cobalt).map valueOf).getD 0
    lithium := ((lookupMetal ts Metal.lithium).map valueOf).getD 0
    copper := ((lookupMetal ts Metal.copper).map valueOf).getD 0
    aluminum := ((lookupMetal ts Metal.aluminum).map valueOf).getD 0
    manganese := ((lookupMetal ts Metal.manganese).map valueOf).getD 0 }

/-- True when no metal label with a following value occurs in the text, i.e.
nothing can be extracted. -/
def noMatch (s : String) : Bool :=
  [Metal.nickel, Metal.cobalt, Metal.lithium,
   Metal.copper, Metal.aluminum, Metal.manganese].all
    (fun m => (lookupMetal (tokenize s) m).isNone)

/-! ## ValidationEngine

Embedded from the `validate_assays` route of `src/main.py` (recorded in
`src/unnamed/part_004`, lines 608-650).  The route reads a JSON object
`bm_grades` of percent grades, appends a warning when Nickel exceeds 60,
Cobalt exceeds 25 or Lithium exceeds 10, and when the sum of all submitted
grades exceeds 100; `valid` is `len(warnings) == 0`.  Only upper bounds are
checked by the code.  The warning messages are f-strings interpolating the
offending grade; they are embedded as a datatype carrying that grade, the
constant text being presentation. -/

/-- A validation warning, one constructor per append site in the route. -/
inductive ValWarning where
  | nickelHigh (grade : ℚ)
  | cobaltHigh (grade : ℚ)
  | lithiumHigh (grade : ℚ)
  | totalHigh (totalGrade : ℚ)
  deriving DecidableEq

/-- The submitted `bm_grades` JSON object: metal-name keys with percent
values (a Python dict; keys are unique). -/
abbrev Grades := List (String × ℚ)

/-- Python's `bm_grades.get(key, 0)`. -/
def gradeGet (g : Grades) (k : String) : ℚ :=
  match List.find? (fun p => p.1 == k) g with
  | some p => p.2
  | none => 0

/-- Python's `sum(bm_grades.values())`. -/
def gradeTotal (g : Grades) : ℚ :=
  (List.map Prod.snd g).sum

/-- Warnings produced by the `validate_assays` route for a submitted grade
map. -/
def validateAssays (g : Grades) : List ValWarning :=
  (if gradeGet g ("Nickel") > 60 then [ValWarning.nickelHigh (gradeGet g ("Nickel"))] else []) ++
  (if gradeGet g ("Cobalt") > 25 then [ValWarning.cobaltHigh (gradeGet g ("Cobalt"))] else []) ++
  (if gradeGet g ("Lithium") > 10 then [ValWarning.lithiumHigh (gradeGet g ("Lithium"))] else []) ++
  (if gradeTotal g > 100 then [ValWarning.totalHigh (gradeTotal g)] else [])

/-- Response body of the `validate_assays` route. -/
structure ValidateResponse where
  valid : Bool
  warnings : List ValWarning
  deriving DecidableEq

/-- The `validate_assays` route: `valid` is `len(warnings) == 0`. -/
def validateAssaysRoute (g : Grades) : ValidateResponse :=
  let ws := validateAssays g
  ⟨ws.length == 0, ws⟩

/-- Acceptability bands exactly as the claim states them: nickel 10-60 %,
cobalt 3-25 %, lithium 1-10 %, and grade sum at most 100 %.  Written from
the claim's words, to be compared with the behaviour of `validateAssays`. -/
def claimBandViolation (g : Grades) : Prop :=
  gradeGet g ("Nickel") < 10 ∨ gradeGet g ("Nickel") > 60 ∨
  gradeGet g ("Cobalt") < 3 ∨ gradeGet g ("Cobalt") > 25 ∨
  gradeGet g ("Lithium") < 1 ∨ gradeGet g ("Lithium") > 10 ∨
  gradeTotal g > 100

instance (g : Grades) : Decidable (claimBandViolation g) := by
  unfold claimBandViolation
  infer_instance

/-- Warnings computed by the engine on its effective grade map (percent
units), mirroring the same upper-bound checks for the six-metal map the
engine holds. -/
def validateGrades (g : MetalMap) : List ValWarning :=
  (if g.nickel > 60 then [ValWarning.nickelHigh g.nickel] else []) ++
  (if g.cobalt > 25 then [ValWarning.cobaltHigh g.cobalt] else []) ++
  (if g.lithium > 10 then [ValWarning.lithiumHigh g.lithium] else []) ++
  (if g.total > 100 then [ValWarning.totalHigh g.total] else [])

/-! ## ValuationEngine

Modelled from the spec: `backend.py`'s `calculate_valuation` is absent from
`src/`.  The algorithm follows spec §4.5 steps 1-8, with two points fixed by
repository records rather than by the spec's words:

* the per-metal material-cost step follows the documented `/api/calculate`
  response in `src/unnamed/part_001` lines 155-171, where every cost equals
  contained mass × metal price × payable fraction with no recovery factor
  (e.g. Nickel 205.0 kg × 16.5 × 0.80 = 2706.0, and the six costs sum to the
  documented `material_cost` 4672.19 exactly); the same formula reproduces
  the expected material cost 4341.75 of `src/LOVABLE_FIX_PROMPT.md`;
* the stoichiometric factors `Ni_to_Sulphate = 4.48` and
  `Co_to_Sulphate = 4.77` are the backend constants recorded in
  `src/docs/ARCHITECTURE_REVIEW.md`; the remaining factors and the derived
  product reference prices (spot price divided by the salt-to-metal factor)
  are modelled from the spec, which gives no numbers for them. -/

/-- Feed-type classification (string literals in the source). -/
inductive FeedType where
  | blackMassProcessed
  | cathodeFoils
  | cellStacks
  | wholeCells
  | modules
  | batteryPacks
  deriving DecidableEq

/-- Whether assays were measured on the whole feed or on processed powder. -/
inductive AssayBasis where
  | wholeBattery
  | finalPowder
  deriving DecidableEq

/-- Nickel/cobalt product route selector. -/
inductive NiProduct where
  | sulphates
  | mhp
  deriving DecidableEq

/-- Lithium product route selector. -/
inductive LiProduct where
  | carbonate
  | hydroxide
  deriving DecidableEq

/-- The full input contract of `calculate` (spec §3 ValuationRequest; field
names follow the JSON request of the `/api/calculate` endpoint). -/
structure ValuationRequest where
  gross_weight : ℚ
  feed_type : FeedType
  yield_pct : ℚ
  mech_recovery : ℚ
  hydromet_recovery : ℚ
  assays : AssayMap
  assay_basis : AssayBasis
  metal_prices : MetalMap
  payables : MetalMap
  shredding_cost_per_ton : ℚ
  elec_surcharge : ℚ
  has_electrolyte : Bool
  refining_opex_base : ℚ
  ni_product : NiProduct
  li_product : LiProduct
  deriving DecidableEq

/-- One row of the product schedule. -/
structure ProductRow where
  product : String
  mass : ℚ
  revenue : ℚ
  deriving DecidableEq

/-- The output record of `calculate` (field names follow the documented
`/api/calculate` response). -/
structure ValuationResult where
  net_bm_weight : ℚ
  bm_grades : MetalMap
  masses : MetalMap
  costs : MetalMap
  material_cost : ℚ
  total_pre_treat : ℚ
  total_refining_cost : ℚ
  total_opex : ℚ
  production_data : List ProductRow
  total_revenue : ℚ
  net_profit : ℚ
  margin_pct : ℚ
  warnings : List ValWarning
  deriving DecidableEq

/-- Metallic-nickel to nickel-sulphate factor (backend constant recorded in
`src/docs/ARCHITECTURE_REVIEW.md`). -/
def Ni_to_Sulphate : ℚ := 4.48

/-- Metallic-cobalt to cobalt-sulphate factor (backend constant recorded in
`src/docs/ARCHITECTURE_REVIEW.md`). -/
def Co_to_Sulphate : ℚ := 4.77

/-- Modelled from the spec: nickel to mixed-hydroxide-precipitate factor
(constant absent from `src/`). -/
def Ni_to_MHP : ℚ := 1.58

/-- Modelled from the spec: cobalt to mixed-hydroxide-precipitate factor
(constant absent from `src/`). -/
def Co_to_MHP : ℚ := 1.58

/-- Modelled from the spec: lithium to lithium-carbonate-equivalent factor
(constant absent from `src/`). -/
def Li_to_LCE : ℚ := 5.32

/-- Modelled from the spec: lithium to lithium-hydroxide factor (constant
absent from `src/`). -/
def Li_to_LiOH : ℚ := 6.06

/-- Kilograms to metric tonnes. -/
def tonnes (kg : ℚ) : ℚ := kg / 1000

/-- Modelled from the spec: derived product reference price, computed from
the spot price and the stoichiometric factor (spec §3 MarketSnapshot). -/
def refPrice (spot factor : ℚ) : ℚ := spot / factor

/-- The valuation engine: spec §4.5 steps 1-8 (see the section comment for
the two points fixed by repository records). -/
def calculate (req : ValuationRequest) : ValuationResult :=
  -- step 1: basis normalization
  let netWeight := req.gross_weight * req.yield_pct
  let effGrade :=
    match req.assay_basis with
    | AssayBasis.wholeBattery => req.assays.scale req.yield_pct
    | AssayBasis.finalPowder => req.assays
  -- step 2: pre-treatment cost gating (hard domain invariant for the
  -- reserved feed type)
  let mechEff :=
    if req.feed_type = FeedType.blackMassProcessed then 1 else req.mech_recovery
  let preTreat :=
    if req.feed_type = FeedType.blackMassProcessed then 0
    else
      req.shredding_cost_per_ton * tonnes netWeight +
        (if req.has_electrolyte then req.elec_surcharge * tonnes netWeight else 0)
  -- step 3: per-metal contained and payable mass
  let contained := effGrade.scale netWeight
  let payableMass := contained.scale (mechEff * req.hydromet_recovery)
  -- step 4: per-metal cost (documented behaviour: contained mass × price ×
  -- payable fraction) and aggregate material cost
  let costs := MetalMap.mul3 contained req.metal_prices req.payables
  let materialCost := costs.total
  -- step 5: refining cost
  let refining := req.refining_opex_base * tonnes netWeight
  let totalOpex := preTreat + refining
  -- step 6: product revenue rows
  let niRows :=
    match req.ni_product with
    | NiProduct.sulphates =>
        [⟨"Nickel Sulphate", payableMass.nickel * Ni_to_Sulphate,
          payableMass.nickel * Ni_to_Sulphate * refPrice req.metal_prices.nickel Ni_to_Sulphate⟩,
         ⟨"Cobalt Sulphate", payableMass.cobalt * Co_to_Sulphate,
          payableMass.cobalt * Co_to_Sulphate * refPrice req.metal_prices.cobalt Co_to_Sulphate⟩]
    | NiProduct.mhp =>
        [⟨"MHP (Ni)", payableMass.nickel * Ni_to_MHP,
          payableMass.nickel * Ni_to_MHP * refPrice req.metal_prices.nickel Ni_to_MHP⟩,
         ⟨"MHP (Co)", payableMass.cobalt * Co_to_MHP,
          payableMass.cobalt * Co_to_MHP * refPrice req.metal_prices.cobalt Co_to_MHP⟩]
  let liRow :=
    match req.li_product with
    | LiProduct.carbonate =>
        (⟨"Carbonate (LCE)", payableMass.lithium * Li_to_LCE,
          payableMass.lithium * Li_to_LCE * refPrice req.metal_prices.lithium Li_to_LCE⟩ : ProductRow)
    | LiProduct.hydroxide =>
        ⟨"Hydroxide (LiOH)", payableMass.lithium * Li_to_LiOH,
          payableMass.lithium * Li_to_LiOH * refPrice req.metal_prices.lithium Li_to_LiOH⟩
  let rows := niRows ++ [liRow]
  -- step 7: totals, net profit and margin (margin is 0 when revenue is 0)
  let totalRevenue := (rows.map ProductRow.revenue).sum
  let netProfit := totalRevenue - materialCost - totalOpex
  let margin := if totalRevenue = 0 then 0 else netProfit / totalRevenue * 100
  -- step 8: warnings on the effective grades as percentages
  { net_bm_weight := netWeight
    bm_grades := effGrade.scale 100
    masses := contained
    costs := costs
    material_cost := materialCost
    total_pre_treat := preTreat
    total_refining_cost := refining
    total_opex := totalOpex
    production_data := rows
    total_revenue := totalRevenue
    net_profit := netProfit
    margin_pct := margin
    warnings := validateGrades (effGrade.scale 100) }

/-! ## Flask API routes

Embedded from `src/main.py` (recorded in `src/unnamed/part_004`).  A route
answers either with a success body or with an error status and message. -/

/-- Outcome of a route: JSON success body, or an error status and message. -/
inductive ApiResponse (α : Type) where
  | ok (data : α)
  | err (status : ℕ) (message : String)
  deriving DecidableEq

/-- Whether a route answered with a success body. -/
def ApiResponse.isOk {α : Type} : ApiResponse α → Bool
  | ApiResponse.ok _ => true
  | ApiResponse.err _ _ => false

/-- The JSON body received by the `calculate_valuation` route.  The route
checks only the presence of `gross_weight`, `assays`, `metal_prices` and
`payables` (its `required_params` list), so exactly those four are optional
here; the engine reads the remaining parameters with defaults. -/
structure RawCalcRequest where
  gross_weight : Option ℚ
  assays : Option AssayMap
  metal_prices : Option MetalMap
  payables : Option MetalMap
  feed_type : FeedType
  yield_pct : ℚ
  mech_recovery : ℚ
  hydromet_recovery : ℚ
  assay_basis : AssayBasis
  shredding_cost_per_ton : ℚ
  elec_surcharge : ℚ
  has_electrolyte : Bool
  refining_opex_base : ℚ
  ni_product : NiProduct
  li_product : LiProduct
  deriving DecidableEq

/-- The `calculate_valuation` route (`src/unnamed/part_004` lines 575-606):
return 400 for the first absent required parameter, otherwise run the engine
and answer 200.  No range check is performed on `gross_weight`. -/
def calculateRoute (r : RawCalcRequest) : ApiResponse ValuationResult :=
  match r.gross_weight with
  | none => ApiResponse.err 400 ("Missing required parameter: gross_weight")
  | some gw =>
    match r.assays with
    | none => ApiResponse.err 400 ("Missing required parameter: assays")
    | some asy =>
      match r.metal_prices with
      | none => ApiResponse.err 400 ("Missing required parameter: metal_prices")
      | some mp =>
        match r.payables with
        | none => ApiResponse.err 400 ("Missing required parameter: payables")
        | some pay =>
          ApiResponse.ok (calculate
            { gross_weight := gw
              feed_type := r.feed_type
              yield_pct := r.yield_pct
              mech_recovery := r.mech_recovery
              hydromet_recovery := r.hydromet_recovery
              assays := asy
              assay_basis := r.assay_basis
              metal_prices := mp
              payables := pay
              shredding_cost_per_ton := r.shredding_cost_per_ton
              elec_surcharge := r.elec_surcharge
              has_electrolyte := r.has_electrolyte
              refining_opex_base := r.refining_opex_base
              ni_product := r.ni_product
              li_product := r.li_product })

/-- The `parse_coa` route (`src/unnamed/part_004` lines 542-573): the body's
`coa_text` is read with default `''`; a falsy value (absent key or empty
string) is answered with 400 `Missing coa_text parameter`, otherwise the
parser runs and its map is returned. -/
def parseCoaRoute (coa_text : Option String) : ApiResponse AssayMap :=
  let t := coa_text.getD ("")
  if t = ("") then ApiResponse.err 400 ("Missing coa_text parameter")
  else ApiResponse.ok (parse t)

/-! ## MarketDataProvider

Modelled from the spec: `backend.py`'s `get_market_data` and its cache are
absent from `src/`; `src/docs/ARCHITECTURE_REVIEW.md` records a module-level
cache with `ttl_minutes = 15`.  Per spec §4.3 and §3, the provider keeps one
`CacheEntry` per currency, returns the cached snapshot unchanged (no network
I/O) while its age is below the 15-minute TTL, and otherwise fetches a fresh
snapshot whose capture timestamp is the current time.  The tiers collapse to
the always-succeeding static fallback here; time is an abstract counter in
minutes, threaded explicitly. -/

/-- Supported currencies (spec §6). -/
inductive Currency where
  | usd
  | cad
  | eur
  | cny
  deriving DecidableEq

/-- Modelled from the spec: static fallback FX table (units of target
currency per 1 USD; exact values absent from `src/`). -/
def staticFx : Currency → ℚ
  | Currency.usd => 1
  | Currency.cad => 1.35
  | Currency.eur => 0.92
  | Currency.cny => 7.2

/-- Static fallback spot prices per kg in USD (the values of the documented
market-data example in `src/unnamed/part_001`). -/
def staticPrices : MetalMap := ⟨16.5, 33, 13.5, 9.2, 2.5, 1.8⟩

/-- An immutable market snapshot (spec §3 MarketSnapshot). -/
structure MarketSnapshot where
  fx : ℚ
  fx_fallback_used : Bool
  timestamp : ℕ
  prices : MetalMap
  deriving DecidableEq

/-- A cache entry: a snapshot with its insertion time (spec §3 CacheEntry;
the currency key is the position in the cache map). -/
structure CacheEntry where
  snapshot : MarketSnapshot
  insertedAt : ℕ
  deriving DecidableEq

/-- The cache TTL in minutes. -/
def ttlMinutes : ℕ := 15

/-- The provider's cache: at most one entry per currency. -/
def Cache := Currency → Option CacheEntry

/-- The empty cache. -/
def Cache.empty : Cache := fun _ => none

/-- Overwrite (never mutate in place) the entry for one currency. -/
def Cache.update (κ : Cache) (c : Currency) (e : CacheEntry) : Cache :=
  fun c' => if c' = c then some e else κ c'

/-- Modelled from the spec: fetch a fresh snapshot at the current time
(always succeeds; the static tier never fails). -/
def fetchSnapshot (c : Currency) (now : ℕ) : MarketSnapshot :=
  { fx := staticFx c
    fx_fallback_used := false
    timestamp := now
    prices := staticPrices.scale (staticFx c) }

/-- Result of one `getSnapshot` call: the snapshot, the cache afterwards, and
whether a network fetch happened. -/
structure FetchResult where
  snapshot : MarketSnapshot
  cache : Cache
  fetched : Bool

/-- `getSnapshot`: return the cached snapshot unchanged while its age is
below the TTL, otherwise fetch and overwrite the entry for that currency. -/
def getSnapshot (κ : Cache) (c : Currency) (now : ℕ) : FetchResult :=
  match κ c with
  | some e =>
    if now - e.insertedAt < ttlMinutes then ⟨e.snapshot, κ, false⟩
    else
      let snap := fetchSnapshot c now
      ⟨snap, κ.update c ⟨snap, now⟩, true⟩
  | none =>
      let snap := fetchSnapshot c now
      ⟨snap, κ.update c ⟨snap, now⟩, true⟩

/-! ## Concrete inputs

These are the documented inputs of the repository, used as witnesses and
counterexample points below. -/

/-- The documented `/api/calculate` request of `src/unnamed/part_001`
lines 98-139: 1000 kg of Black Mass (Processed), yield 1.0, recoveries 0.95,
the standard assays, USD prices, default payables, `shredding_cost_per_ton`
300, electrolyte surcharge 150 with the flag off, refining OPEX 1500,
sulphate and carbonate routes. -/
def exampleReq : ValuationRequest :=
  { gross_weight := 1000
    feed_type := FeedType.blackMassProcessed
    yield_pct := 1
    mech_recovery := 0.95
    hydromet_recovery := 0.95
    assays := ⟨0.205, 0.062, 0.025, 0.035, 0.012, 0.048⟩
    assay_basis := AssayBasis.finalPowder
    metal_prices := ⟨16.5, 33, 13.5, 9.2, 2.5, 1.8⟩
    payables := ⟨0.80, 0.75, 0.30, 0.80, 0.70, 0.60⟩
    shredding_cost_per_ton := 300
    elec_surcharge := 150
    has_electrolyte := false
    refining_opex_base := 1500
    ni_product := NiProduct.sulphates
    li_product := LiProduct.carbonate }

/-- The documented request with an all-zero assay map (a valid input per
spec §4.5: it must produce zero masses and revenues, not an error). -/
def zeroAssayReq : ValuationRequest :=
  { exampleReq with assays := MetalMap.zero }

/-- A `calculate` request body with `gross_weight` 0 and all four required
parameters present (the other parameters are those of the documented
request, with a non-reserved feed type). -/
def zeroWeightRaw : RawCalcRequest :=
  { gross_weight := some 0
    assays := some ⟨0.205, 0.062, 0.025, 0.035, 0.012, 0.048⟩
    metal_prices := some ⟨16.5, 33, 13.5, 9.2, 2.5, 1.8⟩
    payables := some ⟨0.80, 0.75, 0.30, 0.80, 0.70, 0.60⟩
    feed_type := FeedType.cathodeFoils
    yield_pct := 0.9
    mech_recovery := 0.95
    hydromet_recovery := 0.95
    assay_basis := AssayBasis.finalPowder
    shredding_cost_per_ton := 300
    elec_surcharge := 150
    has_electrolyte := false
    refining_opex_base := 1500
    ni_product := NiProduct.sulphates
    li_product := LiProduct.carbonate }

/-- A grade map whose nickel grade (5 %) lies below the lower end of the
10-60 % band, the other grades being the documented ones. -/
def lowNickelGrades : Grades :=
  [(("Nickel"), 5), (("Cobalt"), 6.2), (("Lithium"), 2.5)]

/-- A grade map with nickel at 70 %, above the 60 % upper bound. -/
def highNickelGrades : Grades := [(("Nickel"), 70)]

/-- The cache after a first `getSnapshot` call for USD at time 0 on the
empty cache. -/
def cacheAfterFirstFetch : Cache :=
  (getSnapshot Cache.empty Currency.usd 0).cache

/-! ## Helper lemmas -/

/-- A call that fetched leaves an entry for its currency holding the
returned snapshot, inserted at the call time. -/
theorem getSnapshot_fetched_cache_entry (κ : Cache) (c : Currency) (t : ℕ)
    (h : (getSnapshot κ c t).fetched = true) :
    (getSnapshot κ c t).cache c = some ⟨(getSnapshot κ c t).snapshot, t⟩ := by
  unfold getSnapshot at h ⊢
  cases hκ : κ c with
  | none => simp [hκ, Cache.update]
  | some e =>
    rw [hκ] at h
    by_cases hlt : t - e.insertedAt < ttlMinutes
    · simp [hlt] at h
    · simp [hlt, Cache.update]

/-- A call within the TTL of the resident entry returns that entry's
snapshot, leaves the cache unchanged and performs no fetch. -/
theorem getSnapshot_hit (κ : Cache) (c : Currency) (t : ℕ) (e : CacheEntry)
    (hκ : κ c = some e) (hlt : t - e.insertedAt < ttlMinutes) :
    getSnapshot κ c t = ⟨e.snapshot, κ, false⟩ := by
  unfold getSnapshot
  rw [hκ]
  simp [hlt]

/-- The margin of a result is zero when its revenue is zero and the
profit-over-revenue ratio otherwise (shape of step 7 of `calculate`). -/
theorem margin_pct_def (req : ValuationRequest) :
    (calculate req).margin_pct =
      if (calculate req).total_revenue = 0 then 0
      else (calculate req).net_profit / (calculate req).total_revenue * 100 := rfl

/-! ## Claim theorems -/

/-- C1: for every ValuationRequest whose feed type is the reserved
"Black Mass (Processed)" value, the result of `calculate` has pre-treatment
cost 0 and is unchanged under any substitution of the request's
`shredding_cost_per_ton` and `mech_recovery` — the supplied values are
ignored, not merely defaulted, and a mechanical recovery of 1.0 is used in
all derived masses. -/
theorem calculate_blackMass_ignores_pretreatment_inputs
    (req : ValuationRequest) (s m : ℚ)
    (h : req.feed_type = FeedType.blackMassProcessed) :
    (calculate req).total_pre_treat = 0 ∧
    calculate { req with shredding_cost_per_ton := s, mech_recovery := m } =
      calculate req := by
  cases req
  simp only at h
  subst h
  exact ⟨rfl, rfl⟩

/-- Witness for C1 at the documented request, with shredding cost 999 and
mechanical recovery 1/2 substituted. -/
theorem calculate_blackMass_ignores_pretreatment_inputs_witness :
    (calculate exampleReq).total_pre_treat = 0 ∧
    calculate { exampleReq with shredding_cost_per_ton := 999, mech_recovery := 1/2 } =
      calculate exampleReq :=
  calculate_blackMass_ignores_pretreatment_inputs exampleReq 999 (1/2) rfl

/-- C2: the `calculate_valuation` route accepts a request with
`gross_weight` 0 (all four required parameters present) and produces a
result, while removing a required parameter is rejected — so requests with
non-positive gross weight are not rejected as the claim demands. -/
theorem calculateRoute_accepts_nonpositive_gross_weight :
    zeroWeightRaw.gross_weight = some 0 ∧
    (calculateRoute zeroWeightRaw).isOk = true ∧
    (calculateRoute { zeroWeightRaw with gross_weight := none }).isOk = false :=
  ⟨rfl, rfl, rfl⟩

/-- C3 counterexample: a nickel grade of 5 % lies below the lower end of the
10-60 % band the claim states, yet the route emits no warning. -/
theorem validateAssays_misses_low_grades :
    validateAssays lowNickelGrades = [] ∧ claimBandViolation lowNickelGrades := by
  have hni : gradeGet lowNickelGrades ("Nickel") = 5 := by
    simp [gradeGet, lowNickelGrades, List.find?]
  have hco : gradeGet lowNickelGrades ("Cobalt") = 6.2 := by
    simp [gradeGet, lowNickelGrades, List.find?]
  have hli : gradeGet lowNickelGrades ("Lithium") = 2.5 := by
    simp [gradeGet, lowNickelGrades, List.find?]
  have ht : gradeTotal lowNickelGrades = 5 + (6.2 + (2.5 + 0)) := by
    simp [gradeTotal, lowNickelGrades]
  constructor
  · unfold validateAssays
    rw [hni, hco, hli, ht]
    norm_num
  · unfold claimBandViolation
    rw [hni]
    norm_num

/-- C3 amended: the route's warning list is non-empty exactly when one of
the upper bounds is exceeded (nickel 60 %, cobalt 25 %, lithium 10 %) or the
grade sum exceeds 100 % — lower bounds are never checked. -/
theorem validateAssays_warnings_iff_upper_bounds (g : Grades) :
    validateAssays g ≠ [] ↔
      (gradeGet g ("Nickel") > 60 ∨ gradeGet g ("Cobalt") > 25 ∨
       gradeGet g ("Lithium") > 10 ∨ gradeTotal g > 100) := by
  unfold validateAssays
  split_ifs <;> simp_all

/-- Witness for the amended C3 theorem at a concrete input: a nickel grade
of 70 % makes the warning list non-empty. -/
theorem validateAssays_warnings_iff_upper_bounds_witness :
    validateAssays highNickelGrades ≠ [] :=
  (validateAssays_warnings_iff_upper_bounds highNickelGrades).mpr
    (Or.inl (by
      have h : gradeGet highNickelGrades ("Nickel") = 70 := by
        simp [gradeGet, highNickelGrades, List.find?]
      rw [h]
      norm_num))

/-- C4 counterexample: at the documented request the engine's nickel cost is
the documented 2706.0, while the claim's recovery-compounded payable-mass
formula yields a different value both with the supplied mechanical recovery
(0.95) and with the forced one (1.0). -/
theorem calculate_cost_not_recovery_compounded :
    (calculate exampleReq).costs.nickel = 2706 ∧
    (calculate exampleReq).masses.nickel * exampleReq.mech_recovery *
        exampleReq.hydromet_recovery * exampleReq.metal_prices.nickel *
        exampleReq.payables.nickel ≠ (calculate exampleReq).costs.nickel ∧
    (calculate exampleReq).masses.nickel * 1 * exampleReq.hydromet_recovery *
        exampleReq.metal_prices.nickel * exampleReq.payables.nickel ≠
      (calculate exampleReq).costs.nickel := by
  refine ⟨?_, ?_, ?_⟩ <;>
    norm_num [calculate, exampleReq, MetalMap.mul3, MetalMap.scale,
      MetalMap.total, tonnes]

/-- C4 amended: each metal's material-cost contribution equals its contained
mass × metal price × payable fraction (no recovery factors), and the
aggregate material cost is the sum of the six contributions. -/
theorem calculate_costs_contained_price_payable (req : ValuationRequest) :
    (calculate req).costs.nickel =
      (calculate req).masses.nickel * req.metal_prices.nickel * req.payables.nickel ∧
    (calculate req).costs.cobalt =
      (calculate req).masses.cobalt * req.metal_prices.cobalt * req.payables.cobalt ∧
    (calculate req).costs.lithium =
      (calculate req).masses.lithium * req.metal_prices.lithium * req.payables.lithium ∧
    (calculate req).costs.copper =
      (calculate req).masses.copper * req.metal_prices.copper * req.payables.copper ∧
    (calculate req).costs.aluminum =
      (calculate req).masses.aluminum * req.metal_prices.aluminum * req.payables.aluminum ∧
    (calculate req).costs.manganese =
      (calculate req).masses.manganese * req.metal_prices.manganese * req.payables.manganese ∧
    (calculate req).material_cost =
      (calculate req).costs.nickel + (calculate req).costs.cobalt +
      (calculate req).costs.lithium + (calculate req).costs.copper +
      (calculate req).costs.aluminum + (calculate req).costs.manganese :=
  ⟨rfl, rfl, rfl, rfl, rfl, rfl, rfl⟩

/-- Witness for the amended C4 theorem at the documented request. -/
theorem calculate_costs_contained_price_payable_witness :
    (calculate exampleReq).costs.nickel =
      (calculate exampleReq).masses.nickel * exampleReq.metal_prices.nickel *
        exampleReq.payables.nickel :=
  (calculate_costs_contained_price_payable exampleReq).1

/-- C5: `calculate` returns a margin percentage of exactly 0 whenever the
computed total revenue is 0, and net profit ÷ total revenue × 100
otherwise. -/
theorem calculate_margin_zero_when_revenue_zero (req : ValuationRequest) :
    ((calculate req).total_revenue = 0 → (calculate req).margin_pct = 0) ∧
    ((calculate req).total_revenue ≠ 0 →
      (calculate req).margin_pct =
        (calculate req).net_profit / (calculate req).total_revenue * 100) := by
  constructor
  · intro h
    rw [margin_pct_def, if_pos h]
  · intro h
    rw [margin_pct_def, if_neg h]

/-- Witness for C5: the all-zero assay map yields total revenue 0 and margin
exactly 0. -/
theorem calculate_margin_zero_when_revenue_zero_witness :
    (calculate zeroAssayReq).total_revenue = 0 ∧
    (calculate zeroAssayReq).margin_pct = 0 := by
  have h : (calculate zeroAssayReq).total_revenue = 0 := by
    norm_num [calculate, zeroAssayReq, exampleReq, MetalMap.zero, MetalMap.scale,
      MetalMap.mul3, MetalMap.total, tonnes, refPrice,
      Ni_to_Sulphate, Co_to_Sulphate, Li_to_LCE]
  exact ⟨h, (calculate_margin_zero_when_revenue_zero zeroAssayReq).1 h⟩

/-- C6: the documented COA text parses to Nickel 0.205, Cobalt 0.062,
Lithium 0.025 and 0.0 for every metal not mentioned. -/
theorem parse_documented_coa_example :
    parse ("Ni: 20.5%\nCo: 6.2%\nLi: 2.5%") =
      { nickel := 0.205, cobalt := 0.062, lithium := 0.025,
        copper := 0, aluminum := 0, manganese := 0 } := by
  have hni : lookupMetal (tokenize ("Ni: 20.5%\nCo: 6.2%\nLi: 2.5%")) Metal.nickel =
      some ((("20.5").toList), true) := by decide
  have hco : lookupMetal (tokenize ("Ni: 20.5%\nCo: 6.2%\nLi: 2.5%")) Metal.cobalt =
      some ((("6.2").toList), true) := by decide
  have hli : lookupMetal (tokenize ("Ni: 20.5%\nCo: 6.2%\nLi: 2.5%")) Metal.lithium =
      some ((("2.5").toList), true) := by decide
  have hcu : lookupMetal (tokenize ("Ni: 20.5%\nCo: 6.2%\nLi: 2.5%")) Metal.copper =
      none := by decide
  have hal : lookupMetal (tokenize ("Ni: 20.5%\nCo: 6.2%\nLi: 2.5%")) Metal.aluminum =
      none := by decide
  have hmn : lookupMetal (tokenize ("Ni: 20.5%\nCo: 6.2%\nLi: 2.5%")) Metal.manganese =
      none := by decide
  have p1 : numParts ['2', '0', '.', '5'] = (20, 5, 1) := by decide
  have p2 : numParts ['6', '.', '2'] = (6, 2, 1) := by decide
  have p3 : numParts ['2', '.', '5'] = (2, 5, 1) := by decide
  simp only [parse, hni, hco, hli, hcu, hal, hmn]
  norm_num [valueOf, ratOfNumChars, p1, p2, p3, MetalMap.mk.injEq]

/-- C7: `parse` is a total function — it returns an AssayMap for every input
string — and when nothing can be extracted from the text the returned map
has every entry at 0.0. -/
theorem parse_unparseable_all_zero (s : String) (h : noMatch s = true) :
    parse s = MetalMap.zero := by
  simp only [noMatch, List.all_cons, List.all_nil, Bool.and_eq_true,
    Option.isNone_iff_eq_none, and_true] at h
  obtain ⟨h1, h2, h3, h4, h5, h6⟩ := h
  simp only [parse]
  rw [h1, h2, h3, h4, h5, h6]
  rfl

/-- Witness for C7: a text with no metal label yields the all-zero map. -/
theorem parse_unparseable_all_zero_witness :
    noMatch ("lorem ipsum 42") = true ∧
    parse ("lorem ipsum 42") = MetalMap.zero :=
  ⟨by decide, parse_unparseable_all_zero ("lorem ipsum 42") (by decide)⟩

/-- C8: (i) after a call that fetched, a second call for the same currency
within the 15-minute TTL returns the same snapshot, leaves the cache
unchanged and performs no network fetch; (ii) a call after TTL expiry for a
currency returns a snapshot with a strictly newer timestamp than the
resident one; (iii) a call touches only its own currency's cache entry (one
entry per currency). -/
theorem getSnapshot_cache_properties :
    (∀ (κ : Cache) (c : Currency) (t₀ t₁ : ℕ),
      (getSnapshot κ c t₀).fetched = true → t₁ - t₀ < ttlMinutes →
      getSnapshot (getSnapshot κ c t₀).cache c t₁ =
        ⟨(getSnapshot κ c t₀).snapshot, (getSnapshot κ c t₀).cache, false⟩) ∧
    (∀ (κ : Cache) (c : Currency) (now : ℕ) (e : CacheEntry),
      κ c = some e → e.insertedAt ≤ now → ttlMinutes ≤ now - e.insertedAt →
      e.snapshot.timestamp = e.insertedAt →
      e.snapshot.timestamp < (getSnapshot κ c now).snapshot.timestamp) ∧
    (∀ (κ : Cache) (c c' : Currency) (now : ℕ),
      c' ≠ c → (getSnapshot κ c now).cache c' = κ c') := by
  refine ⟨?_, ?_, ?_⟩
  · intro κ c t₀ t₁ hf hlt
    exact getSnapshot_hit (getSnapshot κ c t₀).cache c t₁
      ⟨(getSnapshot κ c t₀).snapshot, t₀⟩
      (getSnapshot_fetched_cache_entry κ c t₀ hf) hlt
  · intro κ c now e hκ hle httl hts
    have h15 : ttlMinutes = 15 := rfl
    have hnot : ¬ (now - e.insertedAt < ttlMinutes) := by omega
    have hcall : getSnapshot κ c now =
        ⟨fetchSnapshot c now, Cache.update κ c ⟨fetchSnapshot c now, now⟩, true⟩ := by
      unfold getSnapshot
      rw [hκ]
      simp [hnot]
    rw [hcall]
    simp only [fetchSnapshot, hts]
    omega
  · intro κ c c' now hne
    unfold getSnapshot
    cases hκ : κ c with
    | none => simp [Cache.update, hne]
    | some e =>
      by_cases hlt : now - e.insertedAt < ttlMinutes <;>
        simp [hlt, Cache.update, hne]

/-- Witness for C8: a concrete run on the empty cache — fetch for USD at
time 0, hit at time 10, strictly newer timestamp after expiry at time 20,
and the CAD entry untouched throughout. -/
theorem getSnapshot_cache_properties_witness :
    (getSnapshot cacheAfterFirstFetch Currency.usd 10 =
      ⟨(getSnapshot Cache.empty Currency.usd 0).snapshot, cacheAfterFirstFetch, false⟩) ∧
    ((⟨fetchSnapshot Currency.usd 0, 0⟩ : CacheEntry).snapshot.timestamp <
      (getSnapshot cacheAfterFirstFetch Currency.usd 20).snapshot.timestamp) ∧
    (getSnapshot cacheAfterFirstFetch Currency.usd 20).cache Currency.cad =
      cacheAfterFirstFetch Currency.cad :=
  ⟨getSnapshot_cache_properties.1 Cache.empty Currency.usd 0 10 (by decide) (by decide),
   getSnapshot_cache_properties.2.1 cacheAfterFirstFetch Currency.usd 20
     ⟨fetchSnapshot Currency.usd 0, 0⟩ rfl (by decide) (by decide) rfl,
   getSnapshot_cache_properties.2.2 cacheAfterFirstFetch Currency.usd Currency.cad 20
     (by decide)⟩

/-- C9: the `validate_assays` route's `valid` field is true exactly when its
warning list is empty. -/
theorem validateAssaysRoute_valid_iff_no_warnings (g : Grades) :
    (validateAssaysRoute g).valid = true ↔ (validateAssaysRoute g).warnings = [] := by
  simp [validateAssaysRoute]

/-- Witness for the C9 theorem at a concrete input. -/
theorem validateAssaysRoute_valid_iff_no_warnings_witness :
    (validateAssaysRoute highNickelGrades).valid = true ↔
      (validateAssaysRoute highNickelGrades).warnings = [] :=
  validateAssaysRoute_valid_iff_no_warnings highNickelGrades

/-- C10: the `parse_coa` route answers 400 `Missing coa_text parameter` when
`coa_text` is absent or empty, and only non-empty text reaches the parser,
whose map is then returned. -/
theorem parseCoaRoute_rejects_missing_or_empty (o : Option String) :
    ((o = none ∨ o = some ("")) →
      parseCoaRoute o = ApiResponse.err 400 ("Missing coa_text parameter")) ∧
    (∀ t : String, o = some t → t ≠ ("") →
      parseCoaRoute o = ApiResponse.ok (parse t)) := by
  constructor
  · rintro (rfl | rfl) <;> rfl
  · rintro t rfl h
    simp [parseCoaRoute, h]

/-- Witness for C10: the absent body is rejected and the documented COA line
is parsed. -/
theorem parseCoaRoute_rejects_missing_or_empty_witness :
    parseCoaRoute none = ApiResponse.err 400 ("Missing coa_text parameter") ∧
    parseCoaRoute (some ("Ni: 20.5%")) = ApiResponse.ok (parse ("Ni: 20.5%")) :=
  ⟨(parseCoaRoute_rejects_missing_or_empty none).1 (Or.inl rfl),
   (parseCoaRoute_rejects_missing_or_empty (some ("Ni: 20.5%"))).2 ("Ni: 20.5%")
     rfl (by decide)⟩

end BatteryValuator
